import Mathlib

/-!
Verification development for the SendMoney AI chat application.

The embedding translates the TypeScript sources:
* `src/types.ts` - the data model (`TransferState`, `Message`, `PromoData`,
  `AgentResponse`);
* `src/services/geminiService.ts` - `processUserMessage`, the prompt
  construction and the fallback-on-error behaviour;
* `src/app/api/chat/route.ts` - the two POST handlers (the model-backed
  route and the Python-service proxy route);
* `src/components/StatePanel.tsx` - the progress computation;
* `src/app/page.tsx` - the client chat loop (`handleSendMessage`,
  `handleReset`) modelled as a step function over a client state record,
  with server responses and user actions supplied as events.

JavaScript strings are modelled as Lean `String`; the JavaScript library
calls `trim()` and `split(/\s+/)` are modelled by structurally recursive
Lean functions with the same observable behaviour (`jsTrim`,
`jsTrimSplitWs`).  JSON values crossing the HTTP boundary are modelled by
the inductive `JValue`, with JavaScript truthiness given by `truthy`.
External effects (the Gemini call, the fetch to the Python service, JSON
parsing) are supplied as explicit parameters or event payloads, so every
function here is total: a thrown exception in the source corresponds to an
explicit error value.
-/

/-- Role of a chat participant (`types.ts`: `'user' | 'agent'`). -/
inductive Role where
  | user
  | agent
deriving Repr, DecidableEq

/-- Promotional card payload (`types.ts`: `PromoData`). -/
structure PromoData where
  imageUrl : String
  title : String
  description : String
  buttonText : String
  link : String
  footer : String
deriving Repr, DecidableEq

/-- Chat message (`types.ts`: `Message`); the `Date` timestamp is modelled
as epoch milliseconds. -/
structure Message where
  id : String
  role : Role
  content : String
  timestamp : Nat
  promo : Option PromoData
deriving Repr, DecidableEq

/-- Slot-filling state (`types.ts`: `TransferState`); `string | null`
fields become `Option String`. -/
structure TransferState where
  destinationCountry : Option String
  amount : Option String
  beneficiaryName : Option String
  deliveryMethod : Option String
  isComplete : Bool
deriving Repr, DecidableEq

/-- Structured reply of the model-invocation service (`types.ts`:
`AgentResponse`); an absent or null `promo` is `none`. -/
structure AgentResponse where
  agentResponse : String
  updatedState : TransferState
  promo : Option PromoData
deriving Repr, DecidableEq

/-- Whitespace test used by the string helpers. -/
def isWs (c : Char) : Bool := c.isWhitespace

/-- Model of JavaScript `String.prototype.trim`: drop leading and trailing
whitespace. -/
def jsTrim (s : String) : String :=
  String.mk (((s.data.dropWhile isWs).reverse.dropWhile isWs).reverse)

/-- Accumulator-based splitter: cut a character list at whitespace runs. -/
def splitWsAux : List Char → List Char → List String
  | [], acc => if acc.isEmpty then [] else [String.mk acc.reverse]
  | c :: rest, acc =>
    if isWs c then
      if acc.isEmpty then splitWsAux rest []
      else String.mk acc.reverse :: splitWsAux rest []
    else splitWsAux rest (c :: acc)

/-- Model of the JavaScript idiom `s.trim().split(/\s+/)`: on the empty
trimmed string the regex split yields `[""]` (length 1), otherwise the
maximal non-whitespace runs in order. -/
def jsTrimSplitWs (s : String) : List String :=
  let t := jsTrim s
  if t.data.isEmpty then [""] else splitWsAux t.data []

/-- JavaScript truthiness of an optional string (`undefined`/`null` and
`""` are falsy). -/
def truthyStr : Option String → Bool
  | none => false
  | some s => !s.isEmpty

/-- JavaScript `a || b` on optional strings: `b` when `a` is falsy. -/
def jsOrStr (a b : Option String) : Option String :=
  if truthyStr a then a else b

/-- Escape one character as inside a JSON string literal
(model of the escaping performed by `JSON.stringify`). -/
def jsonEscapeChar (c : Char) : String :=
  if c = '"' then "\\\""
  else if c = '\\' then "\\\\"
  else if c = '\n' then "\\n"
  else if c = '\r' then "\\r"
  else if c = '\t' then "\\t"
  else String.singleton c

/-- Escape a whole string as inside a JSON string literal. -/
def jsonEscape (s : String) : String :=
  String.join (s.data.map jsonEscapeChar)

/-- Render a nullable string field the way `JSON.stringify` does. -/
def jsonOfOptStr : Option String → String
  | none => "null"
  | some s => "\"" ++ jsonEscape s ++ "\""

/-- Model of `JSON.stringify(currentState, null, 2)` in
`geminiService.ts`: the two-space pretty-printed object in declaration
order. -/
def serializeTransferState (st : TransferState) : String :=
  "\x7b\n  \"destinationCountry\": " ++ jsonOfOptStr st.destinationCountry ++
  ",\n  \"amount\": " ++ jsonOfOptStr st.amount ++
  ",\n  \"beneficiaryName\": " ++ jsonOfOptStr st.beneficiaryName ++
  ",\n  \"deliveryMethod\": " ++ jsonOfOptStr st.deliveryMethod ++
  ",\n  \"isComplete\": " ++ (if st.isComplete then "true" else "false") ++
  "\n\x7d"

/-- Model of `m.role.toUpperCase()` on the role union. -/
def roleUpper : Role → String
  | Role.user => "USER"
  | Role.agent => "AGENT"

/-- One history line of the prompt:
`` `${m.role.toUpperCase()}: ${m.content}` ``. -/
def fmtMsg (m : Message) : String :=
  roleUpper m.role ++ ": " ++ m.content

/-- Model of `messageHistory.slice(-10)`: the last ten messages (all of
them when there are ten or fewer). -/
def lastTen (history : List Message) : List Message :=
  history.drop (history.length - 10)

/-- The `chatHistoryText` built in `processUserMessage`:
`messageHistory.slice(-10).map(...).join('\n')`. -/
def chatHistoryText (history : List Message) : String :=
  String.intercalate "\n" ((lastTen history).map fmtMsg)

/-- Literal prompt text before the serialized state. -/
def promptPart1 : String := "\n      Current Internal State:\n      "

/-- Literal prompt text between the serialized state and the history. -/
def promptPart2 : String := "\n\n      Conversation History:\n      "

/-- Literal prompt text between the history and the quoted user input. -/
def promptPart3 : String := "\n\n      User\x27s Latest Input:\n      \""

/-- Literal prompt text after the quoted user input. -/
def promptPart4 : String :=
  "\"\n\n      Based on the history and the latest input, return the JSON object with the natural language response and the updated state.\n    "

/-- The template-literal prompt `processUserMessage` sends to the model. -/
def buildPrompt (userMessage : String) (currentState : TransferState)
    (messageHistory : List Message) : String :=
  promptPart1 ++ serializeTransferState currentState ++ promptPart2 ++
  chatHistoryText messageHistory ++ promptPart3 ++ userMessage ++ promptPart4

/-- The fixed apology text of the service-level catch block in
`geminiService.ts`. -/
def fallbackMessage : String :=
  "I\x27m having trouble connecting to the network right now. Please try again in a moment."

/-- The fallback reply built in the catch block: fixed apology, the state
passed in, and no promo field. -/
def fallbackResponse (currentState : TransferState) : AgentResponse :=
  { agentResponse := fallbackMessage, updatedState := currentState, promo := none }

/-- Model of `processUserMessage` in `geminiService.ts`.  The environment
keys, the awaited model call and `JSON.parse` are passed as parameters:
`callModel` receives the built prompt and yields either a thrown error
(`Except.error`) or the optional `result.text`; `parseAgentJson` is `none`
exactly when `JSON.parse` would throw or mis-shape.  Every throwing path
of the source lands in the catch block, i.e. in `fallbackResponse`; the
Lean function is total, so no exception escapes to the caller. -/
def processUserMessage (envGeminiKey envApiKey : Option String)
    (callModel : String → Except Unit (Option String))
    (parseAgentJson : String → Option AgentResponse)
    (userMessage : String) (currentState : TransferState)
    (messageHistory : List Message) : AgentResponse :=
  let apiKey := jsOrStr envGeminiKey envApiKey
  if truthyStr apiKey then
    match callModel (buildPrompt userMessage currentState messageHistory) with
    | Except.error _ => fallbackResponse currentState
    | Except.ok none => fallbackResponse currentState
    | Except.ok (some text) =>
      if text.isEmpty then fallbackResponse currentState
      else
        match parseAgentJson text with
        | some r => r
        | none => fallbackResponse currentState
  else fallbackResponse currentState

/-- JSON values crossing the HTTP boundary. -/
inductive JValue where
  | jnull
  | jbool (b : Bool)
  | jnum (n : Int)
  | jstr (s : String)
  | jarr (elems : List JValue)
  | jobj (fields : List (String × JValue))

/-- First-match lookup in an object's field list (object keys are unique
in the requests the handlers receive). -/
def jLookup : List (String × JValue) → String → Option JValue
  | [], _ => none
  | (k, v) :: rest, key => if k = key then some v else jLookup rest key

/-- Property access `value.key`: `none` models `undefined`. -/
def getField : JValue → String → Option JValue
  | JValue.jobj fields, key => jLookup fields key
  | _, _ => none

/-- JavaScript truthiness of a JSON value. -/
def truthy : JValue → Bool
  | JValue.jnull => false
  | JValue.jbool b => b
  | JValue.jnum n => decide (n ≠ 0)
  | JValue.jstr s => !s.isEmpty
  | JValue.jarr _ => true
  | JValue.jobj _ => true

/-- Truthiness of `body.key` where a missing property is falsy. -/
def truthyField (body : JValue) (key : String) : Bool :=
  match getField body key with
  | none => false
  | some v => truthy v

/-- The validation `!userMessage || typeof userMessage !== 'string'`
shared by both route handlers: true exactly when the field is missing, an
empty string, or not a string. -/
def userMessageInvalid (body : JValue) : Bool :=
  match getField body "userMessage" with
  | some (JValue.jstr s) => s.isEmpty
  | _ => true

/-- Test for the JSON value `null`; destructuring it throws in
JavaScript. -/
def isJNull : JValue → Bool
  | JValue.jnull => true
  | _ => false

/-- Error body `{ error: msg }` produced by `NextResponse.json`. -/
def errBody (msg : String) : JValue :=
  JValue.jobj [("error", JValue.jstr msg)]

/-- An HTTP response as produced by `NextResponse.json(body, { status })`. -/
structure HttpResp where
  status : Nat
  body : JValue

/-- Result of a route handler, instrumented with whether control reached
the downstream call (`processUserMessage` for the model-backed route, the
`fetch` to the Python service for the proxy route). -/
structure RouteResult where
  resp : HttpResp
  invoked : Bool

/-- Encode an optional string field for a JSON reply. -/
def encodeOptStr : Option String → JValue
  | none => JValue.jnull
  | some s => JValue.jstr s

/-- Encode a `TransferState` for a JSON reply. -/
def encodeTransferState (st : TransferState) : JValue :=
  JValue.jobj
    [("destinationCountry", encodeOptStr st.destinationCountry),
     ("amount", encodeOptStr st.amount),
     ("beneficiaryName", encodeOptStr st.beneficiaryName),
     ("deliveryMethod", encodeOptStr st.deliveryMethod),
     ("isComplete", JValue.jbool st.isComplete)]

/-- Encode a promo payload for a JSON reply. -/
def encodePromo (p : PromoData) : JValue :=
  JValue.jobj
    [("imageUrl", JValue.jstr p.imageUrl),
     ("title", JValue.jstr p.title),
     ("description", JValue.jstr p.description),
     ("buttonText", JValue.jstr p.buttonText),
     ("link", JValue.jstr p.link),
     ("footer", JValue.jstr p.footer)]

/-- Encode an `AgentResponse` for a JSON reply; an absent promo is
omitted. -/
def encodeAgentResponse (r : AgentResponse) : JValue :=
  JValue.jobj
    ([("agentResponse", JValue.jstr r.agentResponse),
      ("updatedState", encodeTransferState r.updatedState)] ++
     (match r.promo with
      | some p => [("promo", encodePromo p)]
      | none => []))

/-- Model of the model-backed `POST` handler in `app/api/chat/route.ts`.
The request body is `none` when `request.json()` rejects; a `jnull` body
makes the destructuring `const { userMessage, ... } = body` throw — both
land in the catch block (500).  `svcResult` is the reply of
`processUserMessage` (which never throws); it is only used when control
reaches the service call, which the `invoked` flag records. -/
def POST_chat : Option JValue → AgentResponse → RouteResult
  | none, _ =>
    { resp := { status := 500, body := errBody "Internal server error" }, invoked := false }
  | some body, svcResult =>
    if isJNull body then
      { resp := { status := 500, body := errBody "Internal server error" }, invoked := false }
    else if userMessageInvalid body then
      { resp := { status := 400, body := errBody "userMessage is required and must be a string" },
        invoked := false }
    else if !(truthyField body "currentState") then
      { resp := { status := 400, body := errBody "currentState is required" }, invoked := false }
    else
      { resp := { status := 200, body := encodeAgentResponse svcResult }, invoked := true }

/-- Outcome of the `fetch` to the Python service as observed by the proxy
handler: a rejected fetch, or a response with a status code and the result
of `response.json()` (`none` when that promise rejects). -/
inductive FetchOutcome where
  | netError
  | resp (status : Nat) (bodyJson : Option JValue)

/-- The `Response.ok` predicate of `fetch`: status in 200..299. -/
def respOk (status : Nat) : Bool :=
  decide (200 ≤ status ∧ status < 300)

/-- Model of the proxy `POST` handler in `app/api/chat/route.ts` that
forwards to the Python service.  A `none` request body or a `jnull` body
lands in the catch block (500) before any fetch.  On a non-OK backend
response the error body is `response.json().catch(() => ({}))` and the
surfaced message is `errorBody?.detail || 'Python service error'` with the
backend's status; on an OK response whose body fails to parse the handler
throws into the catch block (500). -/
def POST_proxy : Option JValue → FetchOutcome → RouteResult
  | none, _ =>
    { resp := { status := 500, body := errBody "Internal server error" }, invoked := false }
  | some body, outcome =>
    if isJNull body then
      { resp := { status := 500, body := errBody "Internal server error" }, invoked := false }
    else if userMessageInvalid body then
      { resp := { status := 400, body := errBody "userMessage is required and must be a string" },
        invoked := false }
    else
      match outcome with
      | FetchOutcome.netError =>
        { resp := { status := 500, body := errBody "Internal server error" }, invoked := true }
      | FetchOutcome.resp status bodyJson =>
        if respOk status then
          match bodyJson with
          | none =>
            { resp := { status := 500, body := errBody "Internal server error" }, invoked := true }
          | some data =>
            { resp := { status := 200, body := data }, invoked := true }
        else
          let errorBody := bodyJson.getD (JValue.jobj [])
          let errVal :=
            match getField errorBody "detail" with
            | some v => if truthy v then v else JValue.jstr "Python service error"
            | none => JValue.jstr "Python service error"
          { resp := { status := status, body := JValue.jobj [("error", errVal)] }, invoked := true }

/-- The all-null incomplete initial slot state (`page.tsx`:
`INITIAL_STATE`). -/
def INITIAL_STATE : TransferState :=
  { destinationCountry := none, amount := none, beneficiaryName := none,
    deliveryMethod := none, isComplete := false }

/-- The single greeting message the client starts with (`page.tsx`:
`INITIAL_MESSAGE`). -/
def INITIAL_MESSAGE : Message :=
  { id := "init-1", role := Role.agent,
    content := "Hi! I\x27m your Send Money Assistant. How can I help you with your transfer today?",
    timestamp := 0, promo := none }

/-- The data fields of a parsed server reply as the client reads them:
`data.agentResponse`, `data.updatedState`, `data.promo`, each possibly
absent. -/
structure RespData where
  agentResponse : Option String
  updatedState : Option TransferState
  promo : Option PromoData
deriving Repr, DecidableEq

/-- Settlement of the client's `fetch('/api/chat')`: either any failure
before `data` is available (network rejection, non-OK status, JSON parse
rejection) or parsed data. -/
inductive ServerOutcome where
  | fetchFail
  | gotData (d : RespData)
deriving Repr, DecidableEq

/-- Client-side React state of `Home` in `page.tsx`, plus the ghost
counters `inFlight` (requests issued and not yet settled) and
`fetchCount` (total requests ever issued). -/
structure ClientState where
  messages : List Message
  transferState : TransferState
  inputValue : String
  isLoading : Bool
  sessionId : String
  inFlight : Nat
  fetchCount : Nat
deriving Repr, DecidableEq

/-- Events driving the client: typing into the input box, submitting the
form (`handleSendMessage` up to and including the `fetch` call), the
settlement of an issued fetch (the rest of `handleSendMessage` including
the `finally`), and the reset button (`handleReset` with the freshly
generated session id as payload). -/
inductive ClientEvent where
  | input (value : String)
  | send (now : Nat)
  | settle (outcome : ServerOutcome) (now : Nat)
  | reset (newSessionId : String)
deriving Repr, DecidableEq

/-- The client state right after page load (`useState` initialisers). -/
def initialClient (sessionId : String) : ClientState :=
  { messages := [INITIAL_MESSAGE], transferState := INITIAL_STATE,
    inputValue := "", isLoading := false, sessionId := sessionId,
    inFlight := 0, fetchCount := 0 }

/-- Model of `handleReset`: restore the initial message list and slot
state, clear the input, and install the newly generated session id. -/
def handleReset (s : ClientState) (newSessionId : String) : ClientState :=
  { s with messages := [INITIAL_MESSAGE], transferState := INITIAL_STATE,
           inputValue := "", sessionId := newSessionId }

/-- First half of `handleSendMessage`: the guard
`if (!inputValue.trim() || isLoading) return;`, then appending the user
message, clearing the input, setting the loading flag and issuing the
fetch (recorded in the ghost counters). -/
def handleSendStart (s : ClientState) (now : Nat) : ClientState :=
  if (jsTrim s.inputValue).isEmpty || s.isLoading then s
  else
    let userText := jsTrim s.inputValue
    let userMsg : Message :=
      { id := toString now, role := Role.user, content := userText,
        timestamp := now, promo := none }
    { s with inputValue := "", messages := s.messages ++ [userMsg],
             isLoading := true, inFlight := s.inFlight + 1,
             fetchCount := s.fetchCount + 1 }

/-- The fixed client-side error bubble appended in the catch block of
`handleSendMessage`. -/
def clientErrorMessage (now : Nat) : Message :=
  { id := toString (now + 1), role := Role.agent,
    content := "I\x27m having trouble connecting right now. Please try again in a moment.",
    timestamp := now, promo := none }

/-- Second half of `handleSendMessage`: on failure (rejected fetch,
non-OK response, unparseable body, or falsy `data.agentResponse`) append
the error bubble and leave the transfer state alone; on success append the
agent message and set the transfer state to
`data.updatedState || transferState`.  The `finally` clears the loading
flag; the settled request leaves the in-flight ghost counter. -/
def handleSendResolve (s : ClientState) (outcome : ServerOutcome) (now : Nat) : ClientState :=
  let s1 :=
    match outcome with
    | ServerOutcome.fetchFail =>
      { s with messages := s.messages ++ [clientErrorMessage now] }
    | ServerOutcome.gotData d =>
      match d.agentResponse with
      | none => { s with messages := s.messages ++ [clientErrorMessage now] }
      | some a =>
        if a.isEmpty then
          { s with messages := s.messages ++ [clientErrorMessage now] }
        else
          let agentMsg : Message :=
            { id := toString (now + 1), role := Role.agent, content := a,
              timestamp := now, promo := d.promo }
          { s with messages := s.messages ++ [agentMsg],
                   transferState := d.updatedState.getD s.transferState }
  { s1 with isLoading := false, inFlight := s1.inFlight - 1 }

/-- One client transition. -/
def stepE (s : ClientState) (e : ClientEvent) : ClientState :=
  match e with
  | ClientEvent.input v => { s with inputValue := v }
  | ClientEvent.send now => handleSendStart s now
  | ClientEvent.settle outcome now => handleSendResolve s outcome now
  | ClientEvent.reset newSessionId => handleReset s newSessionId

/-- Run the client from a state through a list of events. -/
def runClient (s : ClientState) (events : List ClientEvent) : ClientState :=
  events.foldl stepE s

/-- The two-token full-name test on an optional name field, as the claim
words it: non-null and the trimmed value splits into at least two
whitespace-separated tokens. -/
def nameHasTwoTokens : Option String → Bool
  | none => false
  | some v => decide (2 ≤ (jsTrimSplitWs v).length)

/-- The completion invariant as the specification words it: the flag is
true iff all four fields are non-null and the beneficiary name has at
least two whitespace-separated tokens. -/
def stateInvariant (st : TransferState) : Prop :=
  st.isComplete = true ↔
    (st.destinationCountry ≠ none ∧ st.amount ≠ none ∧
     st.deliveryMethod ≠ none ∧ nameHasTwoTokens st.beneficiaryName = true)

/-- Executable form of `stateInvariant`. -/
def stateInvariantHolds (st : TransferState) : Bool :=
  st.isComplete ==
    (st.destinationCountry.isSome && st.amount.isSome &&
     st.deliveryMethod.isSome && nameHasTwoTokens st.beneficiaryName)

/-- An event respects the completion invariant when any transfer state it
delivers from the server satisfies the invariant (local events always
do). -/
def eventOk (e : ClientEvent) : Bool :=
  match e with
  | ClientEvent.settle (ServerOutcome.gotData d) _ =>
    (match d.updatedState with
     | some st => stateInvariantHolds st
     | none => true)
  | _ => true

/-- The four panel rows of `StatePanel.tsx` as (key, value) pairs, in
render order. -/
def panelSteps (st : TransferState) : List (String × Option String) :=
  [("destinationCountry", st.destinationCountry),
   ("amount", st.amount),
   ("beneficiaryName", st.beneficiaryName),
   ("deliveryMethod", st.deliveryMethod)]

/-- The progress-bar filter of `StatePanel.tsx`: a step counts when its
value is non-null, and the beneficiary-name step additionally must not be
in the warning state `value.trim().split(/\s+/).length < 2`. -/
def stepFullyDone (step : String × Option String) : Bool :=
  match step.2 with
  | none => false
  | some v =>
    if step.1 = "beneficiaryName" then !(decide ((jsTrimSplitWs v).length < 2))
    else true

/-- `completedStepsCount` of `StatePanel.tsx`. -/
def completedStepsCount (st : TransferState) : Nat :=
  ((panelSteps st).filter stepFullyDone).length

/-- The progress percentage
`(completedStepsCount / steps.length) * 100` (exact rational; the
JavaScript doubles are exact at these values). -/
def percentage (st : TransferState) : ℚ :=
  (completedStepsCount st : ℚ) / ((panelSteps st).length : ℚ) * 100

/-- Per-field satisfaction count following the claim wording: the three
plain fields count when non-null, the beneficiary name counts when
non-null with at least two whitespace-separated tokens in its trimmed
value. -/
def specSatisfiedCount (st : TransferState) : Nat :=
  (if st.destinationCountry.isSome then 1 else 0) +
  (if st.amount.isSome then 1 else 0) +
  (match st.beneficiaryName with
   | some v => if 2 ≤ (jsTrimSplitWs v).length then 1 else 0
   | none => 0) +
  (if st.deliveryMethod.isSome then 1 else 0)

/-- Substring-by-decomposition: `x` occurs inside `s`. -/
def containsSub (s x : String) : Prop :=
  ∃ p q, s = p ++ x ++ q

/-- Invariant-violating state delivered by an adversarial model reply:
completion flag set with every field null. -/
def c1BadState : TransferState :=
  { destinationCountry := none, amount := none, beneficiaryName := none,
    deliveryMethod := none, isComplete := true }

/-- Event trace in which the server replies with `c1BadState`. -/
def c1Events : List ClientEvent :=
  [ClientEvent.input "hola",
   ClientEvent.send 5,
   ClientEvent.settle
     (ServerOutcome.gotData
       { agentResponse := some "listo", updatedState := some c1BadState, promo := none }) 6]

/-- Request body with a valid `userMessage` used by the proxy
counterexample and witnesses. -/
def c4Body : JValue :=
  JValue.jobj [("userMessage", JValue.jstr "hi")]

/-- Backend outcome whose error body carries an empty-string `detail`. -/
def c4Backend : FetchOutcome :=
  FetchOutcome.resp 422 (some (JValue.jobj [("detail", JValue.jstr "")]))

/-- Two-message history used as a concrete prompt-construction input. -/
def c5History : List Message :=
  [INITIAL_MESSAGE,
   { id := "2", role := Role.user, content := "hi", timestamp := 1, promo := none }]

/-- A client state with a request outstanding, used as a concrete input. -/
def c8LoadingState : ClientState :=
  { messages := [INITIAL_MESSAGE], transferState := INITIAL_STATE,
    inputValue := "next", isLoading := true, sessionId := "session-w",
    inFlight := 1, fetchCount := 1 }

/-- Parsed server data with a truthy reply and no `updatedState` field. -/
def c10Data : RespData :=
  { agentResponse := some "done", updatedState := none, promo := none }

/-- A string is non-empty in the `isEmpty` sense iff it differs from `""`. -/
theorem isEmpty_false_of_ne (s : String) (h : s ≠ "") : s.isEmpty = false := by
  rcases hb : s.isEmpty with _ | _
  · rfl
  · exact absurd ((String.isEmpty_iff s).mp hb) h

/-- C2: whenever any step of the model invocation fails — missing or empty
API key, a rejected model call, a missing or empty `result.text`, or a
`JSON.parse` failure — `processUserMessage` returns the fixed apology with
the state it was given and no promo; being a total function, it never
propagates an exception to its caller. -/
theorem processUserMessage_fallback_on_error
    (envGeminiKey envApiKey : Option String)
    (callModel : String → Except Unit (Option String))
    (parseAgentJson : String → Option AgentResponse)
    (userMessage : String) (currentState : TransferState)
    (messageHistory : List Message)
    (herr : truthyStr (jsOrStr envGeminiKey envApiKey) = false
      ∨ callModel (buildPrompt userMessage currentState messageHistory) = Except.error ()
      ∨ callModel (buildPrompt userMessage currentState messageHistory) = Except.ok none
      ∨ (∃ text,
          callModel (buildPrompt userMessage currentState messageHistory) = Except.ok (some text)
          ∧ (text.isEmpty = true ∨ parseAgentJson text = none))) :
    processUserMessage envGeminiKey envApiKey callModel parseAgentJson
        userMessage currentState messageHistory = fallbackResponse currentState
    ∧ (fallbackResponse currentState).updatedState = currentState
    ∧ (fallbackResponse currentState).promo = none := by
  refine ⟨?_, rfl, rfl⟩
  unfold processUserMessage
  by_cases hk : truthyStr (jsOrStr envGeminiKey envApiKey) = true
  · simp only [hk, if_true]
    rcases herr with h | h | h | ⟨text, hcall, hrest⟩
    · rw [hk] at h; cases h
    · rw [h]
    · rw [h]
    · rw [hcall]
      rcases hrest with he | hp
      · simp [he]
      · simp [hp]
  · have hk2 : truthyStr (jsOrStr envGeminiKey envApiKey) = false := by
      revert hk; cases truthyStr (jsOrStr envGeminiKey envApiKey) <;> simp
    simp [hk2]

/-- Witness for C2: with no API keys configured the fallback is returned. -/
theorem processUserMessage_fallback_on_error_witness :
    processUserMessage none none (fun _ => Except.error ()) (fun _ => none)
        "hello" INITIAL_STATE [] = fallbackResponse INITIAL_STATE
    ∧ (fallbackResponse INITIAL_STATE).updatedState = INITIAL_STATE
    ∧ (fallbackResponse INITIAL_STATE).promo = none :=
  processUserMessage_fallback_on_error none none (fun _ => Except.error ())
    (fun _ => none) "hello" INITIAL_STATE [] (Or.inl rfl)

/-- C7: resetting yields the all-null incomplete initial state, discards
the message sequence back to the single greeting, and installs the freshly
generated session id, which differs from the previous one whenever the
generator produced a new value. -/
theorem handleReset_restores_initial (s : ClientState) (newSessionId : String)
    (hfresh : newSessionId ≠ s.sessionId) :
    (stepE s (ClientEvent.reset newSessionId)).transferState = INITIAL_STATE
    ∧ INITIAL_STATE.destinationCountry = none
    ∧ INITIAL_STATE.amount = none
    ∧ INITIAL_STATE.beneficiaryName = none
    ∧ INITIAL_STATE.deliveryMethod = none
    ∧ INITIAL_STATE.isComplete = false
    ∧ (stepE s (ClientEvent.reset newSessionId)).messages = [INITIAL_MESSAGE]
    ∧ (stepE s (ClientEvent.reset newSessionId)).sessionId = newSessionId
    ∧ (stepE s (ClientEvent.reset newSessionId)).sessionId ≠ s.sessionId := by
  refine ⟨rfl, rfl, rfl, rfl, rfl, rfl, rfl, rfl, ?_⟩
  simpa [stepE, handleReset] using hfresh

/-- Witness for C7 at a concrete client state and fresh id. -/
theorem handleReset_restores_initial_witness :
    (stepE (initialClient "session-a") (ClientEvent.reset "session-b")).transferState = INITIAL_STATE
    ∧ INITIAL_STATE.destinationCountry = none
    ∧ INITIAL_STATE.amount = none
    ∧ INITIAL_STATE.beneficiaryName = none
    ∧ INITIAL_STATE.deliveryMethod = none
    ∧ INITIAL_STATE.isComplete = false
    ∧ (stepE (initialClient "session-a") (ClientEvent.reset "session-b")).messages = [INITIAL_MESSAGE]
    ∧ (stepE (initialClient "session-a") (ClientEvent.reset "session-b")).sessionId = "session-b"
    ∧ (stepE (initialClient "session-a") (ClientEvent.reset "session-b")).sessionId
        ≠ (initialClient "session-a").sessionId :=
  handleReset_restores_initial (initialClient "session-a") "session-b" (by decide)

/-- C9: the model-backed chat route additionally validates `currentState`:
with a valid `userMessage` but a missing or falsy `currentState` it
returns status 400 with `currentState is required` and never reaches the
model invocation (the result is the same for every possible service
reply, and the `invoked` flag stays false). -/
theorem chatRoute_requires_currentState (body : JValue) (svcResult : AgentResponse)
    (u : String)
    (hu : getField body "userMessage" = some (JValue.jstr u)) (hne : u ≠ "")
    (hcs : truthyField body "currentState" = false) :
    POST_chat (some body) svcResult =
      { resp := { status := 400, body := errBody "currentState is required" },
        invoked := false } := by
  have hvalid : userMessageInvalid body = false := by
    unfold userMessageInvalid
    rw [hu]
    exact isEmpty_false_of_ne u hne
  cases body with
  | jnull => exact Option.noConfusion hu
  | jbool b => exact Option.noConfusion hu
  | jnum n => exact Option.noConfusion hu
  | jstr s => exact Option.noConfusion hu
  | jarr elems => exact Option.noConfusion hu
  | jobj fields => simp [POST_chat, isJNull, hvalid, hcs]

/-- Witness for C9: a body carrying only a valid `userMessage`. -/
theorem chatRoute_requires_currentState_witness :
    POST_chat (some c4Body) (fallbackResponse INITIAL_STATE) =
      { resp := { status := 400, body := errBody "currentState is required" },
        invoked := false } :=
  chatRoute_requires_currentState c4Body (fallbackResponse INITIAL_STATE) "hi"
    rfl (by decide) rfl

/-- C3: when the request's `userMessage` is missing, empty, or not a
string (formalised: no non-empty string sits in that field), the proxy
route answers 400 with the descriptive validation message and never
forwards to the backend — the result is the same for every backend
outcome and the `invoked` flag stays false; the handler keeps no state at
all. -/
theorem proxyRoute_rejects_invalid_userMessage (body : JValue) (outcome : FetchOutcome)
    (hnn : body ≠ JValue.jnull)
    (hbad : ∀ s : String, getField body "userMessage" = some (JValue.jstr s) → s = "") :
    POST_proxy (some body) outcome =
      { resp := { status := 400,
                  body := errBody "userMessage is required and must be a string" },
        invoked := false } := by
  have hinv : userMessageInvalid body = true := by
    unfold userMessageInvalid
    cases hf : getField body "userMessage" with
    | none => rfl
    | some v =>
      cases v with
      | jnull => rfl
      | jbool b => rfl
      | jnum n => rfl
      | jarr elems => rfl
      | jobj fields => rfl
      | jstr s =>
        have hs := hbad s hf
        subst hs
        rfl
  cases body with
  | jnull => exact absurd rfl hnn
  | jbool b => simp [POST_proxy, isJNull, hinv]
  | jnum n => simp [POST_proxy, isJNull, hinv]
  | jstr s => simp [POST_proxy, isJNull, hinv]
  | jarr elems => simp [POST_proxy, isJNull, hinv]
  | jobj fields => simp [POST_proxy, isJNull, hinv]

/-- Witness for C3: an object body with no `userMessage` field at all. -/
theorem proxyRoute_rejects_invalid_userMessage_witness :
    POST_proxy (some (JValue.jobj [])) FetchOutcome.netError =
      { resp := { status := 400,
                  body := errBody "userMessage is required and must be a string" },
        invoked := false } :=
  proxyRoute_rejects_invalid_userMessage (JValue.jobj []) FetchOutcome.netError
    (fun h => JValue.noConfusion h) (fun _ h => Option.noConfusion h)

/-- C5: the prompt built by `processUserMessage` carries exactly the last
ten history messages — a suffix of the history in original order, all of
it when there are ten or fewer — joined line by line, together with the
serialized current state and the latest user input. -/
theorem prompt_contains_last_ten (userMessage : String) (currentState : TransferState)
    (messageHistory : List Message) :
    List.IsSuffix (lastTen messageHistory) messageHistory
    ∧ (lastTen messageHistory).length = min 10 messageHistory.length
    ∧ (messageHistory.length ≤ 10 → lastTen messageHistory = messageHistory)
    ∧ buildPrompt userMessage currentState messageHistory =
        promptPart1 ++ serializeTransferState currentState ++ promptPart2 ++
        String.intercalate "\n" ((lastTen messageHistory).map fmtMsg) ++
        promptPart3 ++ userMessage ++ promptPart4
    ∧ containsSub (buildPrompt userMessage currentState messageHistory)
        (serializeTransferState currentState)
    ∧ containsSub (buildPrompt userMessage currentState messageHistory)
        (chatHistoryText messageHistory)
    ∧ containsSub (buildPrompt userMessage currentState messageHistory) userMessage := by
  refine ⟨List.drop_suffix _ _, ?_, ?_, rfl, ?_, ?_, ?_⟩
  · rw [lastTen, List.length_drop]
    omega
  · intro h
    rw [lastTen, Nat.sub_eq_zero_of_le h, List.drop_zero]
  · exact ⟨promptPart1,
      promptPart2 ++ chatHistoryText messageHistory ++ promptPart3 ++ userMessage ++ promptPart4,
      by simp [buildPrompt, String.append_assoc]⟩
  · exact ⟨promptPart1 ++ serializeTransferState currentState ++ promptPart2,
      promptPart3 ++ userMessage ++ promptPart4,
      by simp [buildPrompt, String.append_assoc]⟩
  · exact ⟨promptPart1 ++ serializeTransferState currentState ++ promptPart2 ++
        chatHistoryText messageHistory ++ promptPart3,
      promptPart4,
      by simp [buildPrompt, String.append_assoc]⟩

/-- Witness for C5: a two-message history is kept whole, and the prompt
contains the concrete user input. -/
theorem prompt_contains_last_ten_witness :
    lastTen c5History = c5History
    ∧ containsSub (buildPrompt "ok" INITIAL_STATE c5History) "ok" :=
  ⟨(prompt_contains_last_ten "ok" INITIAL_STATE c5History).2.2.1 (by decide),
   (prompt_contains_last_ten "ok" INITIAL_STATE c5History).2.2.2.2.2.2⟩

/-- The panel's negated warning test is the two-token test. -/
theorem not_warning_eq_two_tokens (n : Nat) : (!decide (n < 2)) = decide (2 ≤ n) := by
  rw [← decide_not]
  exact decide_eq_decide.mpr Nat.not_lt

/-- The beneficiary row passes the progress filter iff the two-token check
passes. -/
theorem stepFullyDone_beneficiary (v : String) :
    stepFullyDone ("beneficiaryName", some v) = decide (2 ≤ (jsTrimSplitWs v).length) := by
  show (if ("beneficiaryName" : String) = "beneficiaryName"
        then !(decide ((jsTrimSplitWs v).length < 2)) else true) =
      decide (2 ≤ (jsTrimSplitWs v).length)
  rw [if_pos rfl, not_warning_eq_two_tokens]

/-- A non-beneficiary row passes the progress filter whenever non-null. -/
theorem stepFullyDone_other (key v : String) (h : ¬ key = "beneficiaryName") :
    stepFullyDone (key, some v) = true := by
  show (if key = "beneficiaryName"
        then !(decide ((jsTrimSplitWs v).length < 2)) else true) = true
  rw [if_neg h]

/-- The destination row passes the filter whenever non-null. -/
theorem stepFullyDone_dc (v : String) :
    stepFullyDone ("destinationCountry", some v) = true :=
  stepFullyDone_other _ v (by decide)

/-- The amount row passes the filter whenever non-null. -/
theorem stepFullyDone_amount (v : String) :
    stepFullyDone ("amount", some v) = true :=
  stepFullyDone_other _ v (by decide)

/-- The method row passes the filter whenever non-null. -/
theorem stepFullyDone_dm (v : String) :
    stepFullyDone ("deliveryMethod", some v) = true :=
  stepFullyDone_other _ v (by decide)

/-- A null row never passes the filter. -/
theorem stepFullyDone_none (key : String) : stepFullyDone (key, none) = false := rfl

/-- C6: the panel's progress percentage is the count of fully satisfied
fields over four (times 100), where the three plain fields are satisfied
exactly when non-null and the beneficiary name additionally needs at
least two whitespace-separated tokens in its trimmed value. -/
theorem statePanel_progress (st : TransferState) :
    completedStepsCount st = specSatisfiedCount st
    ∧ percentage st = (specSatisfiedCount st : ℚ) / 4 * 100
    ∧ percentage st / 100 = (specSatisfiedCount st : ℚ) / 4 := by
  have hcount : completedStepsCount st = specSatisfiedCount st := by
    obtain ⟨c, a, b, d, f⟩ := st
    cases c <;> cases a <;> cases d <;> cases b <;>
      simp [completedStepsCount, panelSteps, specSatisfiedCount,
        List.filter_cons, List.filter_nil, stepFullyDone_none,
        stepFullyDone_dc, stepFullyDone_amount, stepFullyDone_dm,
        stepFullyDone_beneficiary] <;>
      (try (split <;> simp_all))
  have h4 : ((panelSteps st).length : ℚ) = 4 := by norm_num [panelSteps]
  refine ⟨hcount, ?_, ?_⟩
  · simp only [percentage, hcount, h4]
  · simp only [percentage, hcount, h4]
    ring

/-- A non-null JSON value fails the null test. -/
theorem isJNull_false_of_ne (body : JValue) (h : body ≠ JValue.jnull) :
    isJNull body = false := by
  cases body with
  | jnull => exact absurd rfl h
  | jbool b => rfl
  | jnum n => rfl
  | jstr s => rfl
  | jarr elems => rfl
  | jobj fields => rfl

/-- C4 (amended): on a non-OK backend response the proxy returns the
backend's own status code and surfaces the backend's `detail` when the
error body carries a truthy one, falling back to the generic
`Python service error` when the detail is missing or falsy; a rejected
fetch, an unparseable request body, or an unparseable OK response body
each produce the generic 500 `Internal server error`. -/
theorem proxyRoute_backend_failure (body : JValue) (status okStatus : Nat)
    (bodyJson : Option JValue)
    (hnn : body ≠ JValue.jnull) (hval : userMessageInvalid body = false)
    (hnok : respOk status = false) (hok : respOk okStatus = true) :
    ((POST_proxy (some body) (FetchOutcome.resp status bodyJson)).resp.status = status
     ∧ ((∃ v, getField (bodyJson.getD (JValue.jobj [])) "detail" = some v ∧ truthy v = true
            ∧ (POST_proxy (some body) (FetchOutcome.resp status bodyJson)).resp.body =
                JValue.jobj [("error", v)])
        ∨ ((POST_proxy (some body) (FetchOutcome.resp status bodyJson)).resp.body =
              errBody "Python service error"
           ∧ ∀ v, getField (bodyJson.getD (JValue.jobj [])) "detail" = some v →
               truthy v = false)))
    ∧ POST_proxy (some body) FetchOutcome.netError =
        { resp := { status := 500, body := errBody "Internal server error" }, invoked := true }
    ∧ POST_proxy (some body) (FetchOutcome.resp okStatus none) =
        { resp := { status := 500, body := errBody "Internal server error" }, invoked := true }
    ∧ POST_proxy none FetchOutcome.netError =
        { resp := { status := 500, body := errBody "Internal server error" }, invoked := false } := by
  have hjn := isJNull_false_of_ne body hnn
  refine ⟨⟨?_, ?_⟩, ?_, ?_, rfl⟩
  · simp [POST_proxy, hjn, hval, hnok]
  · cases hf : getField (bodyJson.getD (JValue.jobj [])) "detail" with
    | none =>
      right
      refine ⟨?_, fun v hv => Option.noConfusion hv⟩
      simp [POST_proxy, hjn, hval, hnok, hf, errBody]
    | some v =>
      cases htv : truthy v with
      | true =>
        left
        exact ⟨v, rfl, htv, by simp [POST_proxy, hjn, hval, hnok, hf, htv]⟩
      | false =>
        right
        refine ⟨by simp [POST_proxy, hjn, hval, hnok, hf, htv, errBody], ?_⟩
        intro w hw
        injection hw with hw
        rw [← hw]
        exact htv
  · simp [POST_proxy, hjn, hval]
  · simp [POST_proxy, hjn, hval, hok]

/-- Witness for C4 at a concrete backend failure carrying a truthy detail
and a concrete rejected fetch. -/
theorem proxyRoute_backend_failure_witness :
    (POST_proxy (some c4Body)
        (FetchOutcome.resp 404 (some (JValue.jobj [("detail", JValue.jstr "boom")])))).resp.status = 404
    ∧ POST_proxy (some c4Body) FetchOutcome.netError =
        { resp := { status := 500, body := errBody "Internal server error" }, invoked := true } :=
  ⟨(proxyRoute_backend_failure c4Body 404 200
      (some (JValue.jobj [("detail", JValue.jstr "boom")]))
      (fun h => JValue.noConfusion h) rfl rfl rfl).1.1,
   (proxyRoute_backend_failure c4Body 404 200
      (some (JValue.jobj [("detail", JValue.jstr "boom")]))
      (fun h => JValue.noConfusion h) rfl rfl rfl).2.1⟩

/-- Counterexample to C4 as stated: the backend's error body carries the
detail `""`, yet the proxy surfaces the generic `Python service error`
instead of that detail. -/
theorem proxyRoute_detail_counterexample :
    getField (JValue.jobj [("detail", JValue.jstr "")]) "detail" = some (JValue.jstr "")
    ∧ (POST_proxy (some c4Body) c4Backend).resp.status = 422
    ∧ (POST_proxy (some c4Body) c4Backend).resp.body = errBody "Python service error"
    ∧ JValue.jstr "Python service error" ≠ JValue.jstr "" := by
  refine ⟨rfl, rfl, rfl, ?_⟩
  intro h
  injection h with h
  exact absurd h (by decide)

/-- C10: a server reply the client accepts but that lacks an
`updatedState` leaves the transfer state at its previous value; a fetch
or parse failure — including a falsy `agentResponse` — appends the error
bubble and also leaves the transfer state unchanged. -/
theorem client_state_frame (s : ClientState) (d : RespData) (now : Nat) :
    ((∃ a, d.agentResponse = some a ∧ a.isEmpty = false) → d.updatedState = none →
      (handleSendResolve s (ServerOutcome.gotData d) now).transferState = s.transferState)
    ∧ (handleSendResolve s ServerOutcome.fetchFail now).transferState = s.transferState
    ∧ (handleSendResolve s ServerOutcome.fetchFail now).messages =
        s.messages ++ [clientErrorMessage now]
    ∧ ((d.agentResponse = none ∨ d.agentResponse = some "") →
        (handleSendResolve s (ServerOutcome.gotData d) now).transferState = s.transferState
        ∧ (handleSendResolve s (ServerOutcome.gotData d) now).messages =
            s.messages ++ [clientErrorMessage now]) := by
  refine ⟨?_, rfl, rfl, ?_⟩
  · rintro ⟨a, ha, hne⟩ hu
    simp [handleSendResolve, ha, hne, hu]
  · have h0 : "".isEmpty = true := rfl
    rintro (h | h) <;> simp [handleSendResolve, h, h0]

/-- Witness for C10: an accepted reply without `updatedState` and a
failed fetch, both at the freshly loaded client. -/
theorem client_state_frame_witness :
    (handleSendResolve (initialClient "session-c") (ServerOutcome.gotData c10Data) 7).transferState
        = (initialClient "session-c").transferState
    ∧ (handleSendResolve (initialClient "session-c") ServerOutcome.fetchFail 7).transferState
        = (initialClient "session-c").transferState :=
  ⟨(client_state_frame (initialClient "session-c") c10Data 7).1 ⟨"done", rfl, rfl⟩ rfl,
   (client_state_frame (initialClient "session-c") c10Data 7).2.1⟩

/-- Settling a request always clears the loading flag and consumes one
in-flight request, whatever the outcome. -/
theorem handleSendResolve_flags (s : ClientState) (o : ServerOutcome) (now : Nat) :
    (handleSendResolve s o now).inFlight = s.inFlight - 1
    ∧ (handleSendResolve s o now).isLoading = false := by
  cases o with
  | fetchFail => exact ⟨rfl, rfl⟩
  | gotData d =>
    cases hd : d.agentResponse with
    | none => simp [handleSendResolve, hd]
    | some a =>
      by_cases ha : a.isEmpty = true <;> simp [handleSendResolve, hd, ha]

/-- One client step preserves the coupling between the loading flag and
the in-flight ghost counter. -/
theorem stepE_load_coupling (s : ClientState) (e : ClientEvent)
    (h : (s.isLoading = true ∧ s.inFlight = 1) ∨ (s.isLoading = false ∧ s.inFlight = 0)) :
    ((stepE s e).isLoading = true ∧ (stepE s e).inFlight = 1)
    ∨ ((stepE s e).isLoading = false ∧ (stepE s e).inFlight = 0) := by
  cases e with
  | input v => exact h
  | reset nid => exact h
  | send now =>
    rcases h with ⟨hl, hf⟩ | ⟨hl, hf⟩
    · left
      simp [stepE, handleSendStart, hl, hf]
    · by_cases hi : (jsTrim s.inputValue).isEmpty = true
      · right
        simp [stepE, handleSendStart, hi, hl, hf]
      · left
        simp [stepE, handleSendStart, hi, hl, hf]
  | settle o now =>
    right
    obtain ⟨hfl, hload⟩ := handleSendResolve_flags s o now
    refine ⟨hload, ?_⟩
    show (handleSendResolve s o now).inFlight = 0
    rw [hfl]
    rcases h with ⟨_, hf⟩ | ⟨_, hf⟩ <;> rw [hf]

/-- Along any event sequence the loading flag and the in-flight counter
stay coupled. -/
theorem runClient_load_coupling (evs : List ClientEvent) (s : ClientState)
    (h : (s.isLoading = true ∧ s.inFlight = 1) ∨ (s.isLoading = false ∧ s.inFlight = 0)) :
    ((runClient s evs).isLoading = true ∧ (runClient s evs).inFlight = 1)
    ∨ ((runClient s evs).isLoading = false ∧ (runClient s evs).inFlight = 0) := by
  induction evs generalizing s with
  | nil => exact h
  | cons e rest ih => exact ih (stepE s e) (stepE_load_coupling s e h)

/-- C8: while the loading flag is set, submitting the form changes
nothing — no message is appended and no fetch is issued (the state,
including the ghost fetch counter, is returned unchanged) — and along
every event sequence from page load at most one request is ever in
flight. -/
theorem client_single_flight :
    (∀ (s : ClientState) (now : Nat), s.isLoading = true →
        stepE s (ClientEvent.send now) = s)
    ∧ ∀ (sid : String) (evs : List ClientEvent),
        (runClient (initialClient sid) evs).inFlight ≤ 1 := by
  constructor
  · intro s now h
    simp [stepE, handleSendStart, h]
  · intro sid evs
    rcases runClient_load_coupling evs (initialClient sid) (Or.inr ⟨rfl, rfl⟩) with
      ⟨_, hf⟩ | ⟨_, hf⟩ <;> omega

/-- Witness for C8: a concrete loading state is left untouched by a send,
and the freshly loaded client has at most one request in flight. -/
theorem client_single_flight_witness :
    stepE c8LoadingState (ClientEvent.send 3) = c8LoadingState
    ∧ (runClient (initialClient "session-w2") []).inFlight ≤ 1 :=
  ⟨client_single_flight.1 c8LoadingState 3 rfl,
   client_single_flight.2 "session-w2" []⟩

/-- The executable and propositional forms of the completion invariant
agree. -/
theorem stateInvariantHolds_iff (st : TransferState) :
    stateInvariantHolds st = true ↔ stateInvariant st := by
  obtain ⟨c, a, b, d, f⟩ := st
  cases c <;> cases a <;> cases d <;> cases hb : nameHasTwoTokens b <;> cases f <;>
    simp [stateInvariantHolds, stateInvariant, hb]

/-- One client step preserves the completion invariant provided any state
the event delivers from the server satisfies it. -/
theorem stepE_preserves_invariant (s : ClientState) (e : ClientEvent)
    (he : eventOk e = true) (hs : stateInvariant s.transferState) :
    stateInvariant (stepE s e).transferState := by
  cases e with
  | input v => exact hs
  | reset nid =>
    show stateInvariant INITIAL_STATE
    simp [stateInvariant, INITIAL_STATE]
  | send now =>
    simp only [stepE, handleSendStart]
    split
    · exact hs
    · exact hs
  | settle o now =>
    cases o with
    | fetchFail => exact hs
    | gotData d =>
      cases hd : d.agentResponse with
      | none => simpa [stepE, handleSendResolve, hd] using hs
      | some a =>
        by_cases ha : a.isEmpty = true
        · simpa [stepE, handleSendResolve, hd, ha] using hs
        · cases hu : d.updatedState with
          | none => simpa [stepE, handleSendResolve, hd, ha, hu] using hs
          | some st2 =>
            have hst2 : stateInvariantHolds st2 = true := by
              have h2 : (match d.updatedState with
                         | some st => stateInvariantHolds st
                         | none => true) = true := he
              rw [hu] at h2
              exact h2
            simpa [stepE, handleSendResolve, hd, ha, hu] using
              (stateInvariantHolds_iff st2).mp hst2

/-- C1 (amended): starting from page load, every reachable transfer state
satisfies the completion invariant provided every state the server
delivers satisfies it; the client itself performs no validation, so the
invariant rests entirely on that assumption about the model's replies. -/
theorem client_invariant_preserved (sid : String) (evs : List ClientEvent)
    (h : ∀ e ∈ evs, eventOk e = true) :
    stateInvariant (runClient (initialClient sid) evs).transferState := by
  have aux : ∀ (l : List ClientEvent) (s : ClientState), (∀ e ∈ l, eventOk e = true) →
      stateInvariant s.transferState → stateInvariant (runClient s l).transferState := by
    intro l
    induction l with
    | nil => intro s _ hs; exact hs
    | cons e rest ih =>
      intro s hl hs
      exact ih (stepE s e) (fun e2 he2 => hl e2 (List.mem_cons_of_mem _ he2))
        (stepE_preserves_invariant s e (hl e (List.mem_cons_self _ _)) hs)
  have hinit : stateInvariant (initialClient sid).transferState := by
    simp [initialClient, stateInvariant, INITIAL_STATE]
  exact aux evs (initialClient sid) h hinit

/-- Witness for C1 (amended) on a concrete invariant-respecting trace. -/
theorem client_invariant_preserved_witness :
    stateInvariant (runClient (initialClient "session-1")
      [ClientEvent.reset "session-2"]).transferState :=
  client_invariant_preserved "session-1" [ClientEvent.reset "session-2"] (by decide)

/-- Counterexample to C1 as stated: the client reaches, by an ordinary
send followed by a server reply, a transfer state whose completion flag
is set while every field is null — the code adopts the reply without any
check, so the claimed invariant fails on this reachable state. -/
theorem client_adopts_invariant_violating_state :
    (runClient (initialClient "session-0") c1Events).transferState = c1BadState
    ∧ ¬ stateInvariant c1BadState := by
  constructor
  · rfl
  · simp [stateInvariant, c1BadState]
